import Mathlib

/-!
Verification of the expense-tracker transaction service, reporting module and
receipt-extraction adapter.

The development shallowly embeds the TypeScript source:

* JavaScript `Date` values are modelled as civil datetimes (`CivilDate`) in a
  fixed-offset timezone (no daylight-saving shifts), with millisecond
  resolution and proleptic-Gregorian years `≥ 0`.  All comparisons performed by
  the code on `Date` values (and by the database on `TIMESTAMP` columns) are
  comparisons of absolute epoch milliseconds, embedded by `absMs`.
* JavaScript numbers are embedded as exact rationals extended with `NaN` and
  signed infinities (`NumVal`); numeric literals are taken at their exact
  value (binary64 rounding, overflow and underflow are not modelled).
* Fallible external calls (authentication, ORM queries, the vision API,
  `JSON.parse`) are environment fields of `Except`/function type; the
  `try`/`catch` blocks of the source are embedded by matching on those values.
-/

set_option allowUnsafeReducibility true
attribute [semireducible] Rat.add Rat.mul Rat.inv Rat.sub Rat.ofScientific

/-! ## Calendar model -/

/-- Milliseconds in one calendar day. -/
def msPerDay : Nat := 86400000

/-- Gregorian leap-year rule, as implemented by the JavaScript `Date`. -/
def isLeap (y : Nat) : Bool := (y % 4 == 0 && y % 100 != 0) || y % 400 == 0

/-- Number of days of month `m` (0-based, JavaScript style) of year `y`. -/
def monthLen (y m : Nat) : Nat :=
  if m = 1 then (if isLeap y then 29 else 28)
  else if m = 3 ∨ m = 5 ∨ m = 8 ∨ m = 10 then 30
  else 31

/-- Month length addressed by a flat month index `i = 12*year + month`. -/
def monthLenIdx (i : Nat) : Nat := monthLen (i / 12) (i % 12)

/-- Days from the epoch (Jan 1 of year 0) to the first day of month index `i`. -/
def monthStartDay : Nat → Nat
  | 0 => 0
  | i + 1 => monthStartDay i + monthLenIdx i

/-- Civil datetime: 0-based month, 1-based day, milliseconds within the day. -/
structure CivilDate where
  year : Nat
  month : Nat
  day : Nat
  ms : Nat
deriving DecidableEq, Repr

/-- Flat month index of a civil date. -/
def monthIdx (c : CivilDate) : Nat := 12 * c.year + c.month

/-- Day number of a civil date, counted from the epoch. -/
def dayNum (c : CivilDate) : Nat := monthStartDay (monthIdx c) + (c.day - 1)

/-- Epoch milliseconds of a civil datetime; `Date` comparisons compare these. -/
def absMs (c : CivilDate) : Nat := dayNum c * msPerDay + c.ms

/-- Well-formedness of a civil datetime. -/
def ValidDate (c : CivilDate) : Prop :=
  c.month < 12 ∧ 1 ≤ c.day ∧ c.day ≤ monthLen c.year c.month ∧ c.ms < msPerDay

instance (c : CivilDate) : Decidable (ValidDate c) := by
  unfold ValidDate; infer_instance

theorem monthLen_ge (y m : Nat) : 28 ≤ monthLen y m := by
  unfold monthLen; split_ifs <;> omega

theorem monthLenIdx_ge (i : Nat) : 28 ≤ monthLenIdx i := monthLen_ge _ _

theorem monthStartDay_succ (i : Nat) :
    monthStartDay (i + 1) = monthStartDay i + monthLenIdx i := rfl

theorem monthStartDay_mono {i j : Nat} (h : i ≤ j) :
    monthStartDay i ≤ monthStartDay j := by
  induction j with
  | zero =>
    have : i = 0 := by omega
    subst this; exact Nat.le_refl _
  | succ j ih =>
    rcases Nat.lt_or_ge i (j + 1) with hlt | hge
    · have := ih (by omega)
      rw [monthStartDay_succ]; omega
    · have : i = j + 1 := by omega
      subst this; exact Nat.le_refl _

theorem monthStartDay_next_le {i j : Nat} (h : i < j) :
    monthStartDay i + monthLenIdx i ≤ monthStartDay j := by
  have := monthStartDay_mono (show i + 1 ≤ j by omega)
  rw [monthStartDay_succ] at this
  exact this

theorem monthLenIdx_monthIdx (c : CivilDate) (h : c.month < 12) :
    monthLenIdx (monthIdx c) = monthLen c.year c.month := by
  unfold monthLenIdx monthIdx
  have h1 : (12 * c.year + c.month) / 12 = c.year := by omega
  have h2 : (12 * c.year + c.month) % 12 = c.month := by omega
  rw [h1, h2]

theorem dayNum_lower (c : CivilDate) : monthStartDay (monthIdx c) ≤ dayNum c := by
  unfold dayNum; omega

theorem dayNum_upper (c : CivilDate) (h : ValidDate c) :
    dayNum c < monthStartDay (monthIdx c + 1) := by
  obtain ⟨hm, hd1, hd2, _⟩ := h
  have hlen := monthLenIdx_monthIdx c hm
  rw [monthStartDay_succ]
  unfold dayNum
  omega

theorem dayNum_inj {c c' : CivilDate} (h : ValidDate c) (h' : ValidDate c')
    (he : dayNum c = dayNum c') :
    c.year = c'.year ∧ c.month = c'.month ∧ c.day = c'.day := by
  rcases Nat.lt_trichotomy (monthIdx c) (monthIdx c') with hlt | heq | hgt
  · exfalso
    have h1 := dayNum_upper c h
    have h2 := monthStartDay_mono (show monthIdx c + 1 ≤ monthIdx c' by omega)
    have h3 := dayNum_lower c'
    omega
  · have hy : c.year = c'.year ∧ c.month = c'.month := by
      obtain ⟨hm, _, _, _⟩ := h
      obtain ⟨hm', _, _, _⟩ := h'
      unfold monthIdx at heq
      omega
    refine ⟨hy.1, hy.2, ?_⟩
    obtain ⟨_, hd1, _, _⟩ := h
    obtain ⟨_, hd1', _, _⟩ := h'
    unfold dayNum at he
    rw [heq] at he
    omega
  · exfalso
    have h1 := dayNum_upper c' h'
    have h2 := monthStartDay_mono (show monthIdx c' + 1 ≤ monthIdx c by omega)
    have h3 := dayNum_lower c
    omega

/-! ## JavaScript number model and `parseFloat` -/

/-- JavaScript number as seen by the validation code: `NaN`, a signed
infinity, or an exact rational value. -/
inductive NumVal where
  | nan : NumVal
  | inf : Bool → NumVal
  | num : Rat → NumVal
deriving DecidableEq, Repr

/-- Embeds the JavaScript `isNaN` test on a parsed amount. -/
def isNaNv : NumVal → Bool
  | .nan => true
  | _ => false

/-- JavaScript `<=` on numbers (false whenever either side is `NaN`). -/
def jsLe : NumVal → NumVal → Bool
  | .nan, _ => false
  | _, .nan => false
  | .inf true, .inf true => true
  | .inf true, .inf false => false
  | .inf true, .num _ => false
  | .inf false, _ => true
  | .num _, .inf true => true
  | .num _, .inf false => false
  | .num x, .num y => decide (x ≤ y)

/-- Value of a digit string, most significant first. -/
def digitsToNat (ds : List Char) : Nat :=
  ds.foldl (fun n c => 10 * n + (c.toNat - 48)) 0

/-- Matches `needle` against the front of `hay` (character-wise). -/
def segAt : List Char → List Char → Bool
  | _, [] => true
  | [], _ :: _ => false
  | h :: hs, n :: ns => h == n && segAt hs ns

/-- Exponent part of a JavaScript float literal, after the `e`/`E`: an
optional sign and digits; an `e` not followed by digits is ignored. -/
def parseExpPart (cs : List Char) : Int :=
  let sgn : Int := match cs with | '-' :: _ => -1 | _ => 1
  let rest := match cs with | '-' :: r => r | '+' :: r => r | r => r
  let ds := rest.takeWhile Char.isDigit
  if ds.isEmpty then 0 else sgn * digitsToNat ds

/-- Embeds the JavaScript global `parseFloat`: skip leading whitespace, read
an optional sign, then either the literal `Infinity` or the longest decimal
prefix `digits [ . digits ] [ (e|E) [sign] digits ]`; anything after the
numeric prefix is ignored, and `NaN` results when no digits are found.
Numeric values are kept as exact rationals. -/
def parseFloat (s : String) : NumVal :=
  let cs := s.toList.dropWhile (fun c => c == ' ' || c == '\t' || c == '\n' || c == '\r')
  let neg : Bool := match cs with | '-' :: _ => true | _ => false
  let cs1 := match cs with | '-' :: r => r | '+' :: r => r | r => r
  if segAt cs1 (String.toList ("Infinity")) then NumVal.inf (!neg)
  else
    let ip := cs1.takeWhile Char.isDigit
    let cs2 := cs1.dropWhile Char.isDigit
    let fp := match cs2 with | '.' :: r => r.takeWhile Char.isDigit | _ => []
    let cs3 := match cs2 with | '.' :: r => r.dropWhile Char.isDigit | _ => cs2
    if ip.isEmpty && fp.isEmpty then NumVal.nan
    else
      let mant : Rat := (digitsToNat ip : Rat) + (digitsToNat fp : Rat) / ((10 : Rat) ^ fp.length)
      let e : Int := match cs3 with
        | c :: r => if c == 'e' || c == 'E' then parseExpPart r else 0
        | [] => 0
      let v : Rat := mant * (10 : Rat) ^ e
      NumVal.num (if neg then -v else v)

/-- Amount check of `createTransaction`/`updateTransaction`:
`isNaN(amount) || amount <= 0`. -/
def amountRejected (a : NumVal) : Bool := isNaNv a || jsLe a (NumVal.num 0)

/-- Finite positive number, as the specification words it. -/
def FinitePos : NumVal → Prop
  | .num q => 0 < q
  | _ => False

instance (a : NumVal) : Decidable (FinitePos a) := by
  unfold FinitePos; cases a <;> infer_instance

/-- Embeds the JavaScript `String.prototype.trim`, dropping the whitespace
characters the validation examples use from both ends. -/
def jsTrim (s : String) : String :=
  let ws := fun c => c == ' ' || c == '\t' || c == '\n' || c == '\r'
  String.mk (((s.toList.dropWhile ws).reverse.dropWhile ws).reverse)

/-! ## Persistence model (Prisma over the schema of the migration file) -/

/-- A row of the `Transaction` table, after `serializeTransaction` (the
`DECIMAL` amount read back as a number).  The model keeps amounts as exact
rationals. -/
structure Transaction where
  id : String
  name : String
  amount : Rat
  category : String
  date : CivilDate
  userId : String
deriving DecidableEq, Repr

/-- The `Transaction` table, scoped queries run over this list. -/
abbrev DB := List Transaction

/-- A thrown JavaScript error; `message` is `none` for a thrown non-`Error`
value (whose `message` property is undefined). -/
structure JsErr where
  message : Option String
deriving DecidableEq, Repr

/-- Embeds `error?.message || fallback`: the fallback is used when `message`
is absent or the empty string (falsy). -/
def errOr (e : JsErr) (fallback : String) : String :=
  match e.message with
  | some m => if m = "" then fallback else m
  | none => fallback

/-- Environment of one server-action invocation: the authentication result,
fault injection for the user upsert and for database queries, the current
date and the id the database would assign to a created row. -/
structure Env where
  auth : Except JsErr (Option String)
  userFault : Option JsErr
  dbFault : Option JsErr
  now : CivilDate
  newId : String

/-- The closed category set, as listed in `createTransaction` (and as the
`Category` enum of the database schema). -/
def validCategories : List String :=
  ["Food", "Groceries", "Transportation", "Internet", "Health", "Sport",
   "Shopping", "Entertainment", "BadHabits", "Other"]

/-- Embeds the `ensureUser` helper: upserts the caller's `User` row and
rethrows any failure as `Failed to create user record`. -/
def ensureUser (env : Env) : Except JsErr Unit :=
  match env.userFault with
  | some _ => Except.error ⟨some ("Failed to create user record")⟩
  | none => Except.ok ()

/-- Embeds `prisma.transaction.create`.  The Prisma client rejects a category
outside the schema enum, and the constrained `DECIMAL(65,30)` column rejects
a non-finite amount; both surface as thrown errors. -/
def dbCreate (env : Env) (db : DB) (name : String) (amount : NumVal)
    (category : String) (date : CivilDate) (userId : String) :
    Except JsErr (DB × Transaction) :=
  match env.dbFault with
  | some e => Except.error e
  | none =>
    if validCategories.contains category then
      match amount with
      | NumVal.num q =>
        let t : Transaction := ⟨env.newId, name, q, category, date, userId⟩
        Except.ok (db ++ [t], t)
      | _ => Except.error ⟨some ("numeric field overflow")⟩
    else Except.error ⟨some ("Invalid value for argument category: " ++ category)⟩

/-- Embeds `prisma.transaction.update` with a `where` on both `id` and
`userId`: argument validation first (enum, decimal), then the scoped row
lookup; a missing row is the P2025 `No record was found` error. -/
def dbUpdate (env : Env) (db : DB) (id userId : String) (name : String)
    (amount : NumVal) (category : String) (date : CivilDate) :
    Except JsErr (DB × Transaction) :=
  match env.dbFault with
  | some e => Except.error e
  | none =>
    if validCategories.contains category then
      match amount with
      | NumVal.num q =>
        match db.find? (fun t => t.id == id && t.userId == userId) with
        | none => Except.error ⟨some ("No record was found")⟩
        | some t0 =>
          let t1 : Transaction := ⟨t0.id, name, q, category, date, t0.userId⟩
          Except.ok
            (db.map (fun t => if t.id == id && t.userId == userId then t1 else t), t1)
      | _ => Except.error ⟨some ("numeric field overflow")⟩
    else Except.error ⟨some ("Invalid value for argument category: " ++ category)⟩

/-- Embeds `prisma.transaction.delete` scoped by `id` and `userId`. -/
def dbDelete (env : Env) (db : DB) (id userId : String) : Except JsErr DB :=
  match env.dbFault with
  | some e => Except.error e
  | none =>
    if db.any (fun t => t.id == id && t.userId == userId) then
      Except.ok (db.filter (fun t => !(t.id == id && t.userId == userId)))
    else Except.error ⟨some ("No record was found")⟩

/-- Date-descending order used by every `orderBy: date desc` query. -/
def dateDesc (a b : Transaction) : Prop := absMs b.date ≤ absMs a.date

instance : DecidableRel dateDesc := by
  unfold dateDesc; intro a b; infer_instance

/-- Embeds `prisma.transaction.findMany` with a row predicate and
`orderBy: date desc`. -/
def dbFindMany (env : Env) (db : DB) (pred : Transaction → Bool) :
    Except JsErr (List Transaction) :=
  match env.dbFault with
  | some e => Except.error e
  | none => Except.ok (List.insertionSort dateDesc (db.filter pred))

/-- Embeds `prisma.transaction.aggregate` with `_sum: amount`: the sum is
`null` (here `none`) when no row matches. -/
def dbAggregateSum (env : Env) (db : DB) (pred : Transaction → Bool) :
    Except JsErr (Option Rat) :=
  match env.dbFault with
  | some e => Except.error e
  | none =>
    let rows := db.filter pred
    Except.ok (if rows.isEmpty then none else some ((rows.map (fun t => t.amount)).sum))

/-! ## Transaction service (the server actions) -/

/-- The `TransactionFormData` type of the actions module. -/
structure TransactionFormData where
  name : String
  amount : String
  category : String
  date : CivilDate
deriving DecidableEq, Repr

/-- Result of `createTransaction`/`updateTransaction`. -/
structure MutResult where
  success : Bool
  transaction : Option Transaction
  error : Option String
deriving DecidableEq, Repr

/-- Result of `deleteTransaction`. -/
structure DelResult where
  success : Bool
  error : Option String
deriving DecidableEq, Repr

/-- Result of `getTransactions`/`getTransactionsByDateRange`. -/
structure ListResult where
  success : Bool
  transactions : List Transaction
  error : Option String
deriving DecidableEq, Repr

/-- Result of `getMonthlyTotal`. -/
structure TotalResult where
  success : Bool
  total : Rat
  error : Option String
deriving DecidableEq, Repr

/-- Embeds the `createTransaction` server action: auth check, user upsert,
amount parse and check, category whitelist, then the insert; every thrown
error is caught and wrapped.  Returns the possibly-extended table and the
structured result. -/
def createTransaction (env : Env) (db : DB) (data : TransactionFormData) :
    DB × MutResult :=
  match env.auth with
  | Except.error e =>
    (db, ⟨false, none, some ("Failed to create transaction: " ++ errOr e ("Unknown error occurred"))⟩)
  | Except.ok none => (db, ⟨false, none, some ("Unauthorized: Please sign in")⟩)
  | Except.ok (some userId) =>
    match ensureUser env with
    | Except.error e =>
      (db, ⟨false, none, some ("Failed to create transaction: " ++ errOr e ("Unknown error occurred"))⟩)
    | Except.ok _ =>
      let amount := parseFloat data.amount
      if amountRejected amount then
        (db, ⟨false, none, some ("Invalid amount: Please enter a valid positive number")⟩)
      else if !(validCategories.contains data.category) then
        (db, ⟨false, none, some ("Invalid category: " ++ data.category)⟩)
      else
        match dbCreate env db (jsTrim data.name) amount data.category data.date userId with
        | Except.error e =>
          (db, ⟨false, none, some ("Failed to create transaction: " ++ errOr e ("Unknown error occurred"))⟩)
        | Except.ok (db2, t) => (db2, ⟨true, some t, none⟩)

/-- Embeds the `updateTransaction` server action: auth check, the amount
check of `createTransaction`, then the scoped update; the category is not
validated here but passed to the database. -/
def updateTransaction (env : Env) (db : DB) (id : String)
    (data : TransactionFormData) : DB × MutResult :=
  match env.auth with
  | Except.error e =>
    (db, ⟨false, none, some ("Failed to update transaction: " ++ errOr e ("Unknown error"))⟩)
  | Except.ok none => (db, ⟨false, none, some ("Unauthorized")⟩)
  | Except.ok (some userId) =>
    let amount := parseFloat data.amount
    if amountRejected amount then
      (db, ⟨false, none, some ("Invalid amount")⟩)
    else
      match dbUpdate env db id userId (jsTrim data.name) amount data.category data.date with
      | Except.error e =>
        (db, ⟨false, none, some ("Failed to update transaction: " ++ errOr e ("Unknown error"))⟩)
      | Except.ok (db2, t) => (db2, ⟨true, some t, none⟩)

/-- Embeds the `deleteTransaction` server action. -/
def deleteTransaction (env : Env) (db : DB) (id : String) : DB × DelResult :=
  match env.auth with
  | Except.error e =>
    (db, ⟨false, some ("Failed to delete transaction: " ++ errOr e ("Unknown error"))⟩)
  | Except.ok none => (db, ⟨false, some ("Unauthorized")⟩)
  | Except.ok (some userId) =>
    match dbDelete env db id userId with
    | Except.error e =>
      (db, ⟨false, some ("Failed to delete transaction: " ++ errOr e ("Unknown error"))⟩)
    | Except.ok db2 => (db2, ⟨true, none⟩)

/-- Embeds the `getTransactions` server action. -/
def getTransactions (env : Env) (db : DB) : ListResult :=
  match env.auth with
  | Except.error e =>
    ⟨false, [], some ("Failed to fetch transactions: " ++ errOr e ("Unknown error"))⟩
  | Except.ok none => ⟨false, [], some ("Unauthorized")⟩
  | Except.ok (some userId) =>
    match ensureUser env with
    | Except.error e =>
      ⟨false, [], some ("Failed to fetch transactions: " ++ errOr e ("Unknown error"))⟩
    | Except.ok _ =>
      match dbFindMany env db (fun t => t.userId == userId) with
      | Except.error e =>
        ⟨false, [], some ("Failed to fetch transactions: " ++ errOr e ("Unknown error"))⟩
      | Except.ok rows => ⟨true, rows, none⟩

/-- Row predicate of `getMonthlyTotal`: user scope and the inclusive instant
window `[new Date(y, m, 1), new Date(y, m + 1, 0)]`; the upper bound is
midnight of the month's last day. -/
def monthlyWindowPred (userId : String) (target : CivilDate)
    (t : Transaction) : Bool :=
  t.userId == userId
    && decide (monthStartDay (monthIdx target) * msPerDay ≤ absMs t.date)
    && decide (absMs t.date ≤ (monthStartDay (monthIdx target + 1) - 1) * msPerDay)

/-- Embeds the `getMonthlyTotal` server action; `month` is the optional
reference date, defaulting to the current date. -/
def getMonthlyTotal (env : Env) (db : DB) (month : Option CivilDate) :
    TotalResult :=
  match env.auth with
  | Except.error e =>
    ⟨false, 0, some ("Failed to fetch monthly total: " ++ errOr e ("Unknown error"))⟩
  | Except.ok none => ⟨false, 0, some ("Unauthorized")⟩
  | Except.ok (some userId) =>
    match ensureUser env with
    | Except.error e =>
      ⟨false, 0, some ("Failed to fetch monthly total: " ++ errOr e ("Unknown error"))⟩
    | Except.ok _ =>
      let targetMonth := month.getD env.now
      match dbAggregateSum env db (monthlyWindowPred userId targetMonth) with
      | Except.error e =>
        ⟨false, 0, some ("Failed to fetch monthly total: " ++ errOr e ("Unknown error"))⟩
      | Except.ok o =>
        ⟨true, (match o with | none => 0 | some s => s), none⟩

/-- Row predicate of `getTransactionsByDateRange`: user scope and the
inclusive window from `startDate` at `00:00:00.000` to `endDate` at
`23:59:59.999`. -/
def rangePred (userId : String) (startDate endDate : CivilDate)
    (t : Transaction) : Bool :=
  t.userId == userId
    && decide (dayNum startDate * msPerDay ≤ absMs t.date)
    && decide (absMs t.date ≤ dayNum endDate * msPerDay + (msPerDay - 1))

/-- Embeds the `getTransactionsByDateRange` server action: the bounds are
normalized with `setHours(0,0,0,0)` and `setHours(23,59,59,999)` before the
inclusive range query ordered by date descending. -/
def getTransactionsByDateRange (env : Env) (db : DB)
    (startDate endDate : CivilDate) : ListResult :=
  match env.auth with
  | Except.error e =>
    ⟨false, [], some ("Failed to fetch transactions: " ++ errOr e ("Unknown error"))⟩
  | Except.ok none => ⟨false, [], some ("Unauthorized")⟩
  | Except.ok (some userId) =>
    match ensureUser env with
    | Except.error e =>
      ⟨false, [], some ("Failed to fetch transactions: " ++ errOr e ("Unknown error"))⟩
    | Except.ok _ =>
      match dbFindMany env db (rangePred userId startDate endDate) with
      | Except.error e =>
        ⟨false, [], some ("Failed to fetch transactions: " ++ errOr e ("Unknown error"))⟩
      | Except.ok rows => ⟨true, rows, none⟩

/-! ## Reporting module (the reports page) -/

/-- The `TimePeriod` union type of the reports page. -/
inductive TimePeriod where
  | thisMonth : TimePeriod
  | last3Months : TimePeriod
  | thisYear : TimePeriod
  | custom : TimePeriod
deriving DecidableEq, Repr

/-- Start of the week containing day number `dn` (`date-fns` default: weeks
start on Sunday; day 0 of the model, Jan 1 of year 0, is a Saturday). -/
def weekStartZ (dn : Int) : Int := dn - (dn + 6) % 7

/-- Start instant of daily bucket `k` of a window starting at `s`
(`eachDayOfInterval` element `k`, as epoch milliseconds). -/
def dailyBound (s : CivilDate) (k : Nat) : Int :=
  ((dayNum s : Int) + k) * (msPerDay : Int)

/-- Start instant of weekly bucket `k` (`eachWeekOfInterval` element `k`). -/
def weeklyBound (s : CivilDate) (k : Nat) : Int :=
  (weekStartZ (dayNum s) + 7 * k) * (msPerDay : Int)

/-- Start instant of monthly bucket `k` (`eachMonthOfInterval` element `k`). -/
def monthlyBound (s : CivilDate) (k : Nat) : Int :=
  (monthStartDay (monthIdx s + k) : Int) * (msPerDay : Int)

/-- Number of elements of `eachDayOfInterval` over `[s, e]`. -/
def dailyCount (s e : CivilDate) : Nat := dayNum e + 1 - dayNum s

/-- Number of elements of `eachWeekOfInterval` over `[s, e]`. -/
def weeklyCount (s e : CivilDate) : Nat :=
  ((weekStartZ (dayNum e) - weekStartZ (dayNum s)) / 7).toNat + 1

/-- Number of elements of `eachMonthOfInterval` over `[s, e]`. -/
def monthlyCount (s e : CivilDate) : Nat := monthIdx e + 1 - monthIdx s

/-- The bucket axis the trend code builds: each interval function paired with
its `addDays`/`addWeeks`/`addMonths` end, driven by the selected period —
daily for `thisMonth`, weekly for `last3Months`, monthly otherwise. -/
def intervalsOf (p : TimePeriod) (s e : CivilDate) : List (Int × Int) :=
  match p with
  | TimePeriod.thisMonth =>
    (List.range (dailyCount s e)).map (fun k => (dailyBound s k, dailyBound s (k + 1)))
  | TimePeriod.last3Months =>
    (List.range (weeklyCount s e)).map (fun k => (weeklyBound s k, weeklyBound s (k + 1)))
  | _ =>
    (List.range (monthlyCount s e)).map (fun k => (monthlyBound s k, monthlyBound s (k + 1)))

/-- Membership test of the trend filter:
`tDate >= intervalStart && tDate < intervalEnd`. -/
def inBucket (iv : Int × Int) (t : Transaction) : Bool :=
  decide (iv.1 ≤ (absMs t.date : Int)) && decide ((absMs t.date : Int) < iv.2)

/-- Amount sum of a transaction list (`reduce((sum, t) => sum + t.amount, 0)`). -/
def sumAmounts (l : List Transaction) : Rat := (l.map (fun t => t.amount)).sum

/-- Embeds the `trendData` memo of the reports page: empty when the fetched
list is empty, otherwise one entry per interval of the period's bucket axis,
carrying the bucket's start (the label's underlying date) and the amount sum
over the bucket's half-open window. -/
def trendData (p : TimePeriod) (s e : CivilDate) (txs : List Transaction) :
    List (Int × Rat) :=
  if txs.isEmpty then []
  else (intervalsOf p s e).map
    (fun iv => (iv.1, sumAmounts (txs.filter (fun t => inBucket iv t))))

/-- Embeds the `totalSpending` reduce of the reports page. -/
def totalSpending (txs : List Transaction) : Rat := sumAmounts txs

/-- Modelled from the spec's words, for comparison with `trendData` (claim
C5): granularity chosen from the window itself — daily for a single-month
window, weekly for a window of at most 3 calendar months, monthly otherwise —
with every bucket of the window present. -/
def specIntervals (s e : CivilDate) : List (Int × Int) :=
  if monthIdx s = monthIdx e then
    (List.range (dailyCount s e)).map (fun k => (dailyBound s k, dailyBound s (k + 1)))
  else if monthIdx e + 1 - monthIdx s ≤ 3 then
    (List.range (weeklyCount s e)).map (fun k => (weeklyBound s k, weeklyBound s (k + 1)))
  else
    (List.range (monthlyCount s e)).map (fun k => (monthlyBound s k, monthlyBound s (k + 1)))

/-- Modelled from the spec's words (claim C5): the trend series the spec
describes, over the spec-chosen granularity, zeros kept. -/
def specTrendData (s e : CivilDate) (txs : List Transaction) :
    List (Int × Rat) :=
  (specIntervals s e).map
    (fun iv => (iv.1, sumAmounts (txs.filter (fun t => inBucket iv t))))

/-! ## Receipt-extraction adapter (`scanReceipt`) -/

/-- A JSON value as the defensive checks of `scanReceipt` see it: a number,
a string, or anything else (objects, booleans — always truthy). -/
inductive JsVal where
  | num : Rat → JsVal
  | str : String → JsVal
  | other : JsVal
deriving DecidableEq, Repr

/-- JavaScript truthiness of a JSON value (`0` and the empty string are
falsy, any other object truthy). -/
def truthy : JsVal → Bool
  | JsVal.num q => decide (q ≠ 0)
  | JsVal.str s => decide (s ≠ "")
  | JsVal.other => true

/-- Truthiness of a possibly-absent field (`!jsonData.field`). -/
def truthyField : Option JsVal → Bool
  | none => false
  | some v => truthy v

/-- The object `JSON.parse` returned, before any validation. -/
structure ScanJson where
  name : Option JsVal
  amount : Option JsVal
  date : Option JsVal
  category : Option JsVal
deriving DecidableEq, Repr

/-- The `AiScanResponse` payload handed back on success: the name as
returned, the amount once known to be a number, and the normalized date and
category strings. -/
structure AiScanResponse where
  name : JsVal
  amount : Rat
  date : String
  category : String
deriving DecidableEq, Repr

/-- Result shape of the `scanReceipt` server action. -/
structure ScanResult where
  success : Bool
  data : Option AiScanResponse
  error : Option String
deriving DecidableEq, Repr

/-- Environment of one `scanReceipt` invocation: key presence, the model
call's outcome, the `JSON.parse` builtin, the `new Date(...)` reparse used
for malformed dates (already reformatted to `YYYY-MM-DD`; `none` when
unparseable) and the current date string. -/
structure ScanEnv where
  apiKey : Bool
  response : Except JsErr String
  jsonParse : String → Except JsErr ScanJson
  reparseDate : JsVal → Option String
  today : String

/-- Substring occurrence check over character lists. -/
def containsSeg : List Char → List Char → Bool
  | [], needle => segAt [] needle
  | h :: t, needle => segAt (h :: t) needle || containsSeg t needle

/-- Embeds `String.prototype.includes`. -/
def strContains (s sub : String) : Bool := containsSeg s.toList sub.toList

/-- Embeds `String.prototype.startsWith`. -/
def jsStartsWith (s p : String) : Bool := segAt s.toList p.toList

/-- Embeds the test of `/^\d{4}-\d{2}-\d{2}$/` on a string. -/
def dateRegexTest (s : String) : Bool :=
  match s.toList with
  | [a, b, c, d, '-', e, f, '-', g, h] =>
    a.isDigit && b.isDigit && c.isDigit && d.isDigit
      && e.isDigit && f.isDigit && g.isDigit && h.isDigit
  | _ => false

/-- The date-format test applied to the parsed `date` field; a non-string
value never matches the anchored digit-dash pattern. -/
def dateTestVal : JsVal → Bool
  | JsVal.str s => dateRegexTest s
  | _ => false

/-- Removes every occurrence of `pat` from the remaining text, left to
right, as `String.prototype.replace` with a global pattern does; fuelled to
stay structural. -/
def removeSegFuel : Nat → List Char → List Char → List Char
  | 0, hay, _ => hay
  | _ + 1, [], _ => []
  | fuel + 1, h :: t, pat =>
    if !pat.isEmpty && segAt (h :: t) pat then
      removeSegFuel fuel (List.drop (pat.length - 1) t) pat
    else h :: removeSegFuel fuel t pat

/-- Embeds `text.replace(/pat/g, "")`. -/
def removeAll (s pat : String) : String :=
  String.mk (removeSegFuel s.toList.length s.toList pat.toList)

/-- Splits a character list at every comma (`String.prototype.split(",")`). -/
def splitOnComma : List Char → List (List Char)
  | [] => [[]]
  | ',' :: t => [] :: splitOnComma t
  | h :: t =>
    match splitOnComma t with
    | [] => [[h]]
    | x :: xs => (h :: x) :: xs

/-- Characters up to the next semicolon, `none` when there is none. -/
def upToSemi : List Char → Option (List Char)
  | [] => none
  | ';' :: _ => some []
  | h :: t =>
    match upToSemi t with
    | none => none
    | some r => some (h :: r)

/-- Capture of the lazy `/:(.*?);/` match on the header segment. -/
def mimeOf : List Char → Option (List Char)
  | [] => none
  | ':' :: t =>
    (match upToSemi t with
     | some m => some m
     | none => mimeOf t)
  | _ :: t => mimeOf t

/-- Embeds `base64ToGenerativePart`: splits the data URL at commas, reads
the mime type between the header's colon and semicolon and throws
`Invalid image data` when the mime type or the data segment is missing or
empty (falsy). -/
def base64ToGenerativePart (image : String) : Except JsErr (String × String) :=
  let parts := splitOnComma image.toList
  let header := parts.headD []
  match mimeOf header, (parts.drop 1).head? with
  | some (c :: cs), some (d :: ds) =>
    Except.ok (String.mk (c :: cs), String.mk (d :: ds))
  | _, _ => Except.error ⟨some ("Invalid image data")⟩

/-- Embeds the `catch` block of `scanReceipt`: known provider substrings map
to fixed messages, anything else surfaces its raw message, and a thrown
non-`Error` gets the generic advice. -/
def scanCatch (e : JsErr) : ScanResult :=
  match e.message with
  | some msg =>
    if strContains msg ("API key") || strContains msg ("API_KEY") then
      ⟨false, none, some ("Invalid API key. Please check your Gemini API configuration.")⟩
    else if strContains msg ("JSON") || strContains msg ("parse") then
      ⟨false, none, some ("Failed to parse AI response. Raw error: " ++ msg)⟩
    else if strContains msg ("quota") || strContains msg ("limit") || strContains msg ("QUOTA") then
      ⟨false, none, some ("API quota exceeded. Please try again later.")⟩
    else if strContains msg ("PERMISSION_DENIED") then
      ⟨false, none, some ("API access denied. Please check your API key permissions.")⟩
    else if strContains msg ("INVALID_ARGUMENT") then
      ⟨false, none, some ("Invalid image format. Please try with a different image.")⟩
    else if strContains msg ("UNAVAILABLE") || strContains msg ("network") then
      ⟨false, none, some ("Service temporarily unavailable. Please try again.")⟩
    else ⟨false, none, some ("Scan failed: " ++ msg)⟩
  | none => ⟨false, none, some ("Failed to scan receipt. Please try again with a clearer image.")⟩

/-- Embeds the `scanReceipt` server action: key and image-format guards, the
single model call, code-fence cleanup, `JSON.parse`, the truthiness check of
the four fields, category coercion to `Other`, date normalization and the
positive-number amount check; every thrown error lands in `scanCatch`. -/
def scanReceipt (env : ScanEnv) (base64Image : String) : ScanResult :=
  if !env.apiKey then
    ⟨false, none, some ("Gemini API key not configured. Please add GEMINI_API_KEY to your .env file.")⟩
  else if base64Image == "" || !(jsStartsWith base64Image ("data:image/")) then
    ⟨false, none, some ("Invalid image format. Please select a valid image file.")⟩
  else
    match base64ToGenerativePart base64Image with
    | Except.error e => scanCatch e
    | Except.ok _ =>
      match env.response with
      | Except.error e => scanCatch e
      | Except.ok text =>
        let cleanedText := jsTrim (removeAll (removeAll text ("```json")) ("```"))
        match env.jsonParse cleanedText with
        | Except.error e => scanCatch e
        | Except.ok j =>
          if !(truthyField j.name) || !(truthyField j.amount)
              || !(truthyField j.date) || !(truthyField j.category) then
            scanCatch ⟨some ("AI returned incomplete data.")⟩
          else
            match j.name, j.amount, j.date, j.category with
            | some nameV, some amountV, some dateV, some catV =>
              let catStr : String :=
                match catV with
                | JsVal.str c => if validCategories.contains c then c else "Other"
                | _ => "Other"
              let dateStr : String :=
                if dateTestVal dateV then
                  match dateV with
                  | JsVal.str s => s
                  | _ => (env.reparseDate dateV).getD env.today
                else (env.reparseDate dateV).getD env.today
              match amountV with
              | JsVal.num q =>
                if q ≤ 0 then scanCatch ⟨some ("Invalid amount extracted from receipt.")⟩
                else ⟨true, some ⟨nameV, q, dateStr, catStr⟩, none⟩
              | _ => scanCatch ⟨some ("Invalid amount extracted from receipt.")⟩
            | _, _, _, _ => scanCatch ⟨some ("AI returned incomplete data.")⟩

/-! ## Helper lemmas -/

set_option maxRecDepth 8000

theorem append_ne_of_take_ne (p c lit : String) (n : Nat)
    (hn : n ≤ p.data.length)
    (hne : List.take n p.data ≠ List.take n lit.data) :
    p ++ c ≠ lit := by
  intro h
  have hd := congrArg String.data h
  rw [String.data_append] at hd
  have ht := congrArg (List.take n) hd
  rw [List.take_append_of_le_length hn] at ht
  exact hne ht

theorem lit_append_ne_empty (p c : String) (hp : 0 < p.length) : p ++ c ≠ "" := by
  intro h
  have hl := congrArg String.length h
  rw [String.length_append] at hl
  have h0 : ("" : String).length = 0 := rfl
  rw [h0] at hl
  omega

theorem append_ne_append_of_take_ne (p q : String) (c d : String) (n : Nat)
    (hn : n ≤ p.data.length) (hm : n ≤ q.data.length)
    (hne : List.take n p.data ≠ List.take n q.data) :
    p ++ c ≠ q ++ d := by
  intro h
  have hd := congrArg String.data h
  rw [String.data_append, String.data_append] at hd
  have ht := congrArg (List.take n) hd
  rw [List.take_append_of_le_length hn, List.take_append_of_le_length hm] at ht
  exact hne ht

/-! ## Claim C1: update validation versus create validation -/

/-- Claim C1 as stated: for every input rejected by `createTransaction`'s
validation (category outside the closed set, or amount text not parsing to a
positive number), `updateTransaction` fails with the same validation error as
`createTransaction` would and modifies no row. -/
def C1Claim : Prop :=
  ∀ (env : Env) (db : DB) (id : String) (data : TransactionFormData),
    (amountRejected (parseFloat data.amount) = true
      ∨ validCategories.contains data.category = false) →
    (updateTransaction env db id data).1 = db
      ∧ (updateTransaction env db id data).2.success = false
      ∧ (updateTransaction env db id data).2.error
          = (createTransaction env db data).2.error

/-- Claim C1 is false: with the valid amount `5` and the out-of-set category
`Junk`, `updateTransaction` does not reproduce `createTransaction`'s
validation error (`Invalid category: Junk`) — it reaches the database and
reports the caught enum rejection as a generic update failure. -/
theorem c1_counterexample : ¬ C1Claim := by
  intro h
  exact absurd
    ((h ⟨Except.ok (some ("u")), none, none, ⟨0, 0, 15, 0⟩, "id1"⟩ [] "t1"
        ⟨"x", "5", "Junk", ⟨0, 0, 3, 0⟩⟩ (Or.inr (by decide))).2.2)
    (by decide)

/-- Amended claim C1: `updateTransaction` repeats only the amount check of
`createTransaction` (rejecting a `NaN` or non-positive parse before touching
the database, with no row modified); an out-of-set category is not validated
but passed to the database, whose enum rejection is caught and reported as a
generic update failure — still modifying no row, but not as
`createTransaction`'s `Invalid category` validation error. -/
theorem c1_update_validation (env : Env) (db : DB) (id : String)
    (data : TransactionFormData) (uid : String)
    (hauth : env.auth = Except.ok (some uid)) :
    (amountRejected (parseFloat data.amount) = true →
      updateTransaction env db id data = (db, ⟨false, none, some ("Invalid amount")⟩))
    ∧ (amountRejected (parseFloat data.amount) = false →
       validCategories.contains data.category = false →
       env.dbFault = none →
       (updateTransaction env db id data).1 = db
         ∧ (updateTransaction env db id data).2.success = false
         ∧ (updateTransaction env db id data).2.error
             = some ("Failed to update transaction: Invalid value for argument category: "
                 ++ data.category)
         ∧ (updateTransaction env db id data).2.error
             ≠ some ("Invalid category: " ++ data.category)) := by
  obtain ⟨auth, uf, df, now, nid⟩ := env
  simp only at hauth
  subst hauth
  constructor
  · intro hrej
    simp [updateTransaction, hrej]
  · intro hrej hcat hdf
    simp only at hdf
    subst hdf
    have hmem : data.category ∉ validCategories := by simpa using hcat
    have herr : (updateTransaction ⟨Except.ok (some uid), uf, none, now, nid⟩ db id data).2.error
        = some ("Failed to update transaction: Invalid value for argument category: "
            ++ data.category) := by
      simp [updateTransaction, dbUpdate, hrej, hmem, errOr]
      rw [if_neg (lit_append_ne_empty _ _ (by decide)), ← String.append_assoc]
      congr 1
    refine ⟨?_, ?_, herr, ?_⟩
    · simp [updateTransaction, dbUpdate, hrej, hmem, errOr]
    · simp [updateTransaction, dbUpdate, hrej, hmem, errOr]
    · intro h
      rw [herr] at h
      exact append_ne_append_of_take_ne _ _ _ _ 9 (by decide) (by decide) (by decide)
        (Option.some.inj h)

/-- Witness for `c1_update_validation` at a concrete rejected amount and a
concrete invalid category. -/
theorem c1_witness :
    (updateTransaction ⟨Except.ok (some ("u")), none, none, ⟨0, 0, 15, 0⟩, "id1"⟩
        [] "t1" ⟨"x", "-3", "Food", ⟨0, 0, 3, 0⟩⟩
      = ([], ⟨false, none, some ("Invalid amount")⟩))
    ∧ (updateTransaction ⟨Except.ok (some ("u")), none, none, ⟨0, 0, 15, 0⟩, "id1"⟩
        [] "t1" ⟨"x", "5", "Junk", ⟨0, 0, 3, 0⟩⟩).1 = [] :=
  ⟨(c1_update_validation ⟨Except.ok (some ("u")), none, none, ⟨0, 0, 15, 0⟩, "id1"⟩
      [] "t1" ⟨"x", "-3", "Food", ⟨0, 0, 3, 0⟩⟩ "u" rfl).1 (by decide),
   ((c1_update_validation ⟨Except.ok (some ("u")), none, none, ⟨0, 0, 15, 0⟩, "id1"⟩
      [] "t1" ⟨"x", "5", "Junk", ⟨0, 0, 3, 0⟩⟩ "u" rfl).2 (by decide) (by decide) rfl).1⟩

theorem append_ne_lit_of_take_ne (p c lit : String) (n : Nat)
    (hn : n ≤ p.data.length)
    (hne : List.take n p.data ≠ List.take n lit.data) :
    p ++ c ≠ lit := by
  intro h
  have hd := congrArg String.data h
  rw [String.data_append] at hd
  have ht := congrArg (List.take n) hd
  rw [List.take_append_of_le_length hn] at ht
  exact hne ht

/-- Outcome of `createTransaction` on a valid input: row appended, trimmed
name stored, parsed amount stored. -/
theorem createTransaction_ok (db : DB) (data : TransactionFormData) (uid : String)
    (now : CivilDate) (nid : String) (q : Rat)
    (hrej : amountRejected (parseFloat data.amount) = false)
    (hcat : data.category ∈ validCategories)
    (hpf : parseFloat data.amount = NumVal.num q) :
    createTransaction ⟨Except.ok (some uid), none, none, now, nid⟩ db data
      = (db ++ [⟨nid, jsTrim data.name, q, data.category, data.date, uid⟩],
         ⟨true, some ⟨nid, jsTrim data.name, q, data.category, data.date, uid⟩, none⟩) := by
  rw [hpf] at hrej
  simp [createTransaction, ensureUser, hrej, hcat, hpf, dbCreate]

/-- Outcome of `createTransaction` when the amount parses to `+Infinity`:
validation passes, the database rejects, nothing is persisted. -/
theorem createTransaction_inf (db : DB) (data : TransactionFormData) (uid : String)
    (now : CivilDate) (nid : String)
    (hcat : data.category ∈ validCategories)
    (hpf : parseFloat data.amount = NumVal.inf true) :
    createTransaction ⟨Except.ok (some uid), none, none, now, nid⟩ db data
      = (db, ⟨false, none, some ("Failed to create transaction: numeric field overflow")⟩) := by
  have hrej : amountRejected (NumVal.inf true) = false := by decide
  simp [createTransaction, ensureUser, hrej, hcat, hpf, dbCreate, errOr]

/-- Outcome of `createTransaction` under a database fault, once validation
has passed. -/
theorem createTransaction_fault (db : DB) (data : TransactionFormData) (uid : String)
    (e : JsErr) (now : CivilDate) (nid : String)
    (hrej : amountRejected (parseFloat data.amount) = false)
    (hcat : data.category ∈ validCategories) :
    createTransaction ⟨Except.ok (some uid), none, some e, now, nid⟩ db data
      = (db, ⟨false, none, some ("Failed to create transaction: " ++ errOr e ("Unknown error occurred"))⟩) := by
  simp [createTransaction, ensureUser, hrej, hcat, dbCreate]

/-- Outcome of `createTransaction` on an out-of-set category. -/
theorem createTransaction_badcat (db : DB) (data : TransactionFormData) (uid : String)
    (df : Option JsErr) (now : CivilDate) (nid : String)
    (hrej : amountRejected (parseFloat data.amount) = false)
    (hcat : data.category ∉ validCategories) :
    createTransaction ⟨Except.ok (some uid), none, df, now, nid⟩ db data
      = (db, ⟨false, none, some ("Invalid category: " ++ data.category)⟩) := by
  simp [createTransaction, ensureUser, hrej, hcat]

/-- Outcome of `createTransaction` on a rejected amount. -/
theorem createTransaction_rejected (db : DB) (data : TransactionFormData)
    (uid : String) (df : Option JsErr) (now : CivilDate) (nid : String)
    (hrej : amountRejected (parseFloat data.amount) = true) :
    createTransaction ⟨Except.ok (some uid), none, df, now, nid⟩ db data
      = (db, ⟨false, none, some ("Invalid amount: Please enter a valid positive number")⟩) := by
  simp [createTransaction, ensureUser, hrej]

/-! ## Claim C3: amount validation of `createTransaction` -/

/-- Claim C3 as stated: `createTransaction` fails with the amount-validation
error (persisting no row) exactly when the amount text does not denote a
finite positive number. -/
def C3Claim : Prop :=
  ∀ (env : Env) (db : DB) (data : TransactionFormData),
    ¬ FinitePos (parseFloat data.amount) →
    (createTransaction env db data).1 = db
      ∧ (createTransaction env db data).2.error
          = some ("Invalid amount: Please enter a valid positive number")

/-- Claim C3 is false: the amount text `Infinity` does not denote a finite
positive number, yet `isNaN(amount) || amount <= 0` accepts it — the create
then fails at the database layer with a generic error, not the validation
error. -/
theorem c3_counterexample : ¬ C3Claim := by
  intro h
  exact absurd
    ((h ⟨Except.ok (some ("u")), none, none, ⟨0, 0, 15, 0⟩, "id1"⟩ []
        ⟨"x", "Infinity", "Food", ⟨0, 0, 3, 0⟩⟩ (by decide)).2)
    (by decide)

/-- Amended claim C3: the amount validation of `createTransaction` rejects
exactly when `parseFloat` yields `NaN` or a value `<= 0` — finiteness is not
checked; every such rejection persists no row; and an amount text parsing to
`+Infinity` passes the validation, after which the create fails at the
database layer (no row persisted, generic error). -/
theorem c3_amount_validation (env : Env) (db : DB) (data : TransactionFormData)
    (uid : String) (hauth : env.auth = Except.ok (some uid))
    (huf : env.userFault = none) :
    ((createTransaction env db data).2.error
        = some ("Invalid amount: Please enter a valid positive number")
      ↔ amountRejected (parseFloat data.amount) = true)
    ∧ (amountRejected (parseFloat data.amount) = true →
        createTransaction env db data
          = (db, ⟨false, none, some ("Invalid amount: Please enter a valid positive number")⟩))
    ∧ (parseFloat data.amount = NumVal.inf true →
       validCategories.contains data.category = true →
       (createTransaction env db data).1 = db
         ∧ (createTransaction env db data).2.success = false) := by
  obtain ⟨auth, uf, df, now, nid⟩ := env
  simp only at hauth huf
  subst hauth
  subst huf
  refine ⟨⟨?_, ?_⟩, ?_, ?_⟩
  · intro herr
    by_cases hrej : amountRejected (parseFloat data.amount) = true
    · exact hrej
    · exfalso
      have hrej' : amountRejected (parseFloat data.amount) = false := by
        simpa using hrej
      by_cases hcat : data.category ∈ validCategories
      · cases df with
        | none =>
          cases hpf : parseFloat data.amount with
          | num q =>
            rw [createTransaction_ok db data uid now nid q hrej' hcat hpf] at herr
            simp at herr
          | nan =>
            rw [hpf] at hrej'
            simp [amountRejected, isNaNv] at hrej'
          | inf b =>
            cases b with
            | false =>
              rw [hpf] at hrej'
              simp [amountRejected, isNaNv, jsLe] at hrej'
            | true =>
              rw [createTransaction_inf db data uid now nid hcat hpf] at herr
              simp at herr
        | some e =>
          rw [createTransaction_fault db data uid e now nid hrej' hcat] at herr
          simp at herr
          exact append_ne_lit_of_take_ne _ _ _ 1 (by decide) (by decide) herr
      · rw [createTransaction_badcat db data uid df now nid hrej' hcat] at herr
        simp at herr
        exact append_ne_lit_of_take_ne _ _ _ 9 (by decide) (by decide) herr
  · intro hrej
    exact (createTransaction_rejected db data uid df now nid hrej).symm ▸ rfl
  · intro hrej
    exact createTransaction_rejected db data uid df now nid hrej
  · intro hpf hcat
    have hcat' : data.category ∈ validCategories := by simpa using hcat
    have hrej' : amountRejected (parseFloat data.amount) = false := by
      rw [hpf]; decide
    cases df with
    | none => rw [createTransaction_inf db data uid now nid hcat' hpf]; exact ⟨rfl, rfl⟩
    | some e => rw [createTransaction_fault db data uid e now nid hrej' hcat']; exact ⟨rfl, rfl⟩

/-- Witness for `c3_amount_validation`: the amount `-100` is rejected by
validation with no row persisted, and `Infinity` passes validation but the
create still fails without persisting. -/
theorem c3_witness :
    (createTransaction ⟨Except.ok (some ("u")), none, none, ⟨0, 0, 15, 0⟩, "id1"⟩
        [] ⟨"Rent", "-100", "Shopping", ⟨0, 0, 4, 0⟩⟩
      = ([], ⟨false, none, some ("Invalid amount: Please enter a valid positive number")⟩))
    ∧ (createTransaction ⟨Except.ok (some ("u")), none, none, ⟨0, 0, 15, 0⟩, "id1"⟩
        [] ⟨"x", "Infinity", "Food", ⟨0, 0, 4, 0⟩⟩).1 = [] :=
  ⟨(c3_amount_validation ⟨Except.ok (some ("u")), none, none, ⟨0, 0, 15, 0⟩, "id1"⟩
      [] ⟨"Rent", "-100", "Shopping", ⟨0, 0, 4, 0⟩⟩ "u" rfl rfl).2.1 (by decide),
   ((c3_amount_validation ⟨Except.ok (some ("u")), none, none, ⟨0, 0, 15, 0⟩, "id1"⟩
      [] ⟨"x", "Infinity", "Food", ⟨0, 0, 4, 0⟩⟩ "u" rfl rfl).2.2 (by decide) (by decide)).1⟩

/-! ## Claim C4: name validation of `createTransaction` -/

/-- Claim C4 as stated: `createTransaction` rejects, with no row persisted,
any name that is empty or whitespace-only after trimming. -/
def C4Claim : Prop :=
  ∀ (env : Env) (db : DB) (data : TransactionFormData),
    jsTrim data.name = "" →
    (createTransaction env db data).1 = db
      ∧ (createTransaction env db data).2.success = false

/-- Claim C4 is false: a whitespace-only name passes (the action performs no
name check at all) — the create succeeds and a row with the empty display
name is persisted. -/
theorem c4_counterexample : ¬ C4Claim := by
  intro h
  exact absurd
    ((h ⟨Except.ok (some ("u")), none, none, ⟨0, 0, 15, 0⟩, "id1"⟩ []
        ⟨"   ", "5", "Food", ⟨0, 0, 4, 0⟩⟩ (by decide)).2)
    (by decide)

/-- Amended claim C4: `createTransaction` trims the name but never validates
it — on any input passing the amount and category checks the create
succeeds and persists a row whose stored name is the trimmed input, the
empty string included. -/
theorem c4_no_name_validation (env : Env) (db : DB) (data : TransactionFormData)
    (uid : String) (q : Rat)
    (hauth : env.auth = Except.ok (some uid))
    (huf : env.userFault = none) (hdf : env.dbFault = none)
    (hpf : parseFloat data.amount = NumVal.num q) (hq : 0 < q)
    (hcat : data.category ∈ validCategories) :
    createTransaction env db data
      = (db ++ [⟨env.newId, jsTrim data.name, q, data.category, data.date, uid⟩],
         ⟨true, some ⟨env.newId, jsTrim data.name, q, data.category, data.date, uid⟩, none⟩) := by
  obtain ⟨auth, uf, df, now, nid⟩ := env
  simp only at hauth huf hdf
  subst hauth
  subst huf
  subst hdf
  have hrej : amountRejected (parseFloat data.amount) = false := by
    rw [hpf]
    simp [amountRejected, isNaNv, jsLe, not_le.mpr hq]
  exact createTransaction_ok db data uid now nid q hrej hcat hpf

/-- Witness for `c4_no_name_validation` at the whitespace-only name: the
persisted row's display name is the empty string. -/
theorem c4_witness :
    createTransaction ⟨Except.ok (some ("u")), none, none, ⟨0, 0, 15, 0⟩, "id1"⟩
        [] ⟨"   ", "5", "Food", ⟨0, 0, 4, 0⟩⟩
      = ([⟨"id1", "", 5, "Food", ⟨0, 0, 4, 0⟩, "u"⟩],
         ⟨true, some ⟨"id1", "", 5, "Food", ⟨0, 0, 4, 0⟩, "u"⟩, none⟩) := by
  have h := c4_no_name_validation
    ⟨Except.ok (some ("u")), none, none, ⟨0, 0, 15, 0⟩, "id1"⟩ []
    ⟨"   ", "5", "Food", ⟨0, 0, 4, 0⟩⟩ "u" 5 rfl rfl rfl (by decide) (by decide)
    (by decide)
  rw [h]
  exact congrArg _ (by decide)

/-! ## Claim C2: the monthly-total window -/


theorem monthlyWindow_iff (ref : CivilDate) (c : CivilDate)
    (href : ValidDate ref) (hc : ValidDate c) :
    (monthStartDay (monthIdx ref) * msPerDay ≤ absMs c
      ∧ absMs c ≤ (monthStartDay (monthIdx ref + 1) - 1) * msPerDay)
    ↔ (c.year = ref.year ∧ c.month = ref.month
        ∧ (c.day < monthLen ref.year ref.month ∨ c.ms = 0)) := by
  have hsucc := monthStartDay_succ (monthIdx ref)
  have hlen := monthLenIdx_monthIdx ref href.1
  have hlenge := monthLenIdx_ge (monthIdx ref)
  have hcd := hc.2.1
  have hcd2 := hc.2.2.1
  have hcms := hc.2.2.2
  have hrd2 := href.2.2.1
  constructor
  · rintro ⟨hlo, hhi⟩
    rcases Nat.lt_trichotomy (monthIdx c) (monthIdx ref) with hlt | heq | hgt
    · exfalso
      have h1 := dayNum_upper c hc
      have h2 := monthStartDay_mono (show monthIdx c + 1 ≤ monthIdx ref by omega)
      unfold absMs at hlo
      unfold msPerDay at hlo hcms
      omega
    · have hym : c.year = ref.year ∧ c.month = ref.month := by
        have h1 := hc.1
        have h2 := href.1
        unfold monthIdx at heq
        omega
      refine ⟨hym.1, hym.2, ?_⟩
      unfold absMs dayNum at hhi
      rw [heq] at hhi
      rw [hsucc, hlen] at hhi
      unfold msPerDay at hhi hcms
      have : c.day ≤ monthLen ref.year ref.month := by
        rw [← hym.1, ← hym.2]; exact hcd2
      omega
    · exfalso
      have h1 := monthStartDay_mono (show monthIdx ref + 1 ≤ monthIdx c by omega)
      have h2 := dayNum_lower c
      unfold absMs at hhi
      rw [hsucc, hlen] at h1
      unfold msPerDay at hhi hcms
      omega
  · rintro ⟨hy, hm, hdm⟩
    have hidx : monthIdx c = monthIdx ref := by unfold monthIdx; omega
    have hlen2 : c.day ≤ monthLen ref.year ref.month := by
      rw [← hy, ← hm]; exact hcd2
    constructor
    · unfold absMs dayNum
      rw [hidx]
      unfold msPerDay
      omega
    · unfold absMs dayNum
      rw [hidx, hsucc, hlen]
      unfold msPerDay at hcms
      unfold msPerDay
      omega

theorem monthlyWindowPred_eq (uid : String) (ref : CivilDate) (t : Transaction)
    (href : ValidDate ref) (ht : ValidDate t.date) :
    monthlyWindowPred uid ref t
      = (t.userId == uid && (t.date.year == ref.year) && (t.date.month == ref.month)
          && (decide (t.date.day < monthLen ref.year ref.month) || (t.date.ms == 0))) := by
  have hiff := monthlyWindow_iff ref t.date href ht
  rw [Bool.eq_iff_iff]
  simp only [monthlyWindowPred, Bool.and_eq_true, Bool.or_eq_true, decide_eq_true_eq,
    beq_iff_eq]
  constructor
  · rintro ⟨⟨h1, h2⟩, h3⟩
    have h4 := hiff.mp ⟨h2, h3⟩
    exact ⟨⟨⟨h1, h4.1⟩, h4.2.1⟩, h4.2.2⟩
  · rintro ⟨⟨⟨h1, h2⟩, h3⟩, h4⟩
    have h5 := hiff.mpr ⟨h2, h3, h4⟩
    exact ⟨⟨h1, h5.1⟩, h5.2⟩

theorem getMonthlyTotal_ok (db : DB) (uid : String) (ref : CivilDate)
    (now : CivilDate) (nid : String) :
    getMonthlyTotal ⟨Except.ok (some uid), none, none, now, nid⟩ db (some ref)
      = ⟨true, sumAmounts (db.filter (monthlyWindowPred uid ref)), none⟩ := by
  by_cases hrows : db.filter (monthlyWindowPred uid ref) = []
  · simp [getMonthlyTotal, ensureUser, dbAggregateSum, hrows, sumAmounts]
  · simp [getMonthlyTotal, ensureUser, dbAggregateSum, hrows, sumAmounts,
      List.isEmpty_iff]

/-- Claim C2 as stated: for an authenticated caller, `getMonthlyTotal` sums
the caller's transactions over the full calendar month of the reference date
(first through last calendar day inclusive). -/
def C2Claim : Prop :=
  ∀ (env : Env) (db : DB) (uid : String) (ref : CivilDate),
    env.auth = Except.ok (some uid) → env.userFault = none → env.dbFault = none →
    (getMonthlyTotal env db (some ref)).total
      = sumAmounts (db.filter (fun t =>
          t.userId == uid && (t.date.year == ref.year) && (t.date.month == ref.month)))

/-- Claim C2 is false: a transaction dated 01:00 on the month's last
calendar day lies in the month but after the query's upper bound (midnight
of the last day, `new Date(y, m + 1, 0)`), so it is not summed. -/
theorem c2_counterexample : ¬ C2Claim := by
  intro h
  exact absurd
    (h ⟨Except.ok (some ("u")), none, none, ⟨0, 0, 15, 0⟩, "id1"⟩
      [⟨"t1", "late", 7, "Food", ⟨0, 0, 31, 3600000⟩, "u"⟩] "u" ⟨0, 0, 15, 0⟩
      rfl rfl rfl)
    (by decide)

/-- Amended claim C2: `getMonthlyTotal` succeeds and sums the caller's
transactions over the inclusive instant window from the first day of the
month at midnight to the *last day at midnight* — a transaction on the last
calendar day with a nonzero time-of-day is excluded; the sum of the empty
match is exactly 0 (never null or a failure). -/
theorem c2_monthly_total_window (env : Env) (db : DB) (uid : String)
    (ref : CivilDate)
    (hauth : env.auth = Except.ok (some uid)) (huf : env.userFault = none)
    (hdf : env.dbFault = none) (href : ValidDate ref) :
    (getMonthlyTotal env db (some ref)).success = true
    ∧ (getMonthlyTotal env db (some ref)).total
        = sumAmounts (db.filter (monthlyWindowPred uid ref))
    ∧ (∀ t : Transaction, ValidDate t.date →
        monthlyWindowPred uid ref t
          = (t.userId == uid && (t.date.year == ref.year) && (t.date.month == ref.month)
              && (decide (t.date.day < monthLen ref.year ref.month) || (t.date.ms == 0))))
    ∧ (db.filter (monthlyWindowPred uid ref) = [] →
        (getMonthlyTotal env db (some ref)).total = 0) := by
  obtain ⟨auth, uf, df, now, nid⟩ := env
  simp only at hauth huf hdf
  subst hauth
  subst huf
  subst hdf
  rw [getMonthlyTotal_ok]
  refine ⟨rfl, rfl, ?_, ?_⟩
  · intro t ht
    exact monthlyWindowPred_eq uid ref t href ht
  · intro hrows
    rw [hrows]
    rfl

/-- Witness for `c2_monthly_total_window`: a month containing one
transaction at midnight of its last day sums to that amount, and the
last-day-afternoon transaction of the counterexample is outside the window
predicate. -/
theorem c2_witness :
    (getMonthlyTotal ⟨Except.ok (some ("u")), none, none, ⟨0, 0, 15, 0⟩, "id1"⟩
        [⟨"t1", "x", 7, "Food", ⟨0, 0, 31, 0⟩, "u"⟩] (some ⟨0, 0, 15, 0⟩)).success = true
    ∧ (getMonthlyTotal ⟨Except.ok (some ("u")), none, none, ⟨0, 0, 15, 0⟩, "id1"⟩
        [⟨"t1", "x", 7, "Food", ⟨0, 0, 31, 0⟩, "u"⟩] (some ⟨0, 0, 15, 0⟩)).total
        = sumAmounts ([⟨"t1", "x", 7, "Food", ⟨0, 0, 31, 0⟩, "u"⟩].filter
            (monthlyWindowPred "u" ⟨0, 0, 15, 0⟩)) :=
  ⟨(c2_monthly_total_window ⟨Except.ok (some ("u")), none, none, ⟨0, 0, 15, 0⟩, "id1"⟩
      [⟨"t1", "x", 7, "Food", ⟨0, 0, 31, 0⟩, "u"⟩] "u" ⟨0, 0, 15, 0⟩
      rfl rfl rfl (by decide)).1,
   (c2_monthly_total_window ⟨Except.ok (some ("u")), none, none, ⟨0, 0, 15, 0⟩, "id1"⟩
      [⟨"t1", "x", 7, "Food", ⟨0, 0, 31, 0⟩, "u"⟩] "u" ⟨0, 0, 15, 0⟩
      rfl rfl rfl (by decide)).2.1⟩

/-! ## Claim C7: single-day range queries -/

instance : IsTotal Transaction dateDesc :=
  ⟨fun a b => Nat.le_total (absMs b.date) (absMs a.date)⟩

instance : IsTrans Transaction dateDesc :=
  ⟨fun _ _ _ hab hbc => Nat.le_trans hbc hab⟩

theorem dayWindow_iff (d c : CivilDate) (hc : ValidDate c) :
    (dayNum d * msPerDay ≤ absMs c ∧ absMs c ≤ dayNum d * msPerDay + (msPerDay - 1))
      ↔ dayNum c = dayNum d := by
  have hms := hc.2.2.2
  unfold absMs at hms ⊢
  unfold msPerDay at hms ⊢
  constructor
  · rintro ⟨h1, h2⟩
    omega
  · intro h
    rw [h]
    omega

theorem getTransactionsByDateRange_ok (db : DB) (uid : String)
    (s e : CivilDate) (now : CivilDate) (nid : String) :
    getTransactionsByDateRange ⟨Except.ok (some uid), none, none, now, nid⟩ db s e
      = ⟨true, List.insertionSort dateDesc (db.filter (rangePred uid s e)), none⟩ := by
  simp [getTransactionsByDateRange, ensureUser, dbFindMany]

/-- Claim C7: `getTransactionsByDateRange` normalizes the bounds to the
start and end of their calendar days; a query with `start = end = d`
returns exactly the caller's transactions dated on that calendar day — any
time-of-day included — ordered by date descending. -/
theorem c7_single_day_range (env : Env) (db : DB) (uid : String) (d : CivilDate)
    (hauth : env.auth = Except.ok (some uid)) (huf : env.userFault = none)
    (hdf : env.dbFault = none) (hd : ValidDate d)
    (hdb : ∀ t ∈ db, ValidDate t.date) :
    (getTransactionsByDateRange env db d d).success = true
    ∧ List.Sorted dateDesc (getTransactionsByDateRange env db d d).transactions
    ∧ ∀ t : Transaction,
        t ∈ (getTransactionsByDateRange env db d d).transactions
          ↔ (t ∈ db ∧ t.userId = uid ∧ t.date.year = d.year
              ∧ t.date.month = d.month ∧ t.date.day = d.day) := by
  obtain ⟨auth, uf, df, now, nid⟩ := env
  simp only at hauth huf hdf
  subst hauth
  subst huf
  subst hdf
  rw [getTransactionsByDateRange_ok]
  refine ⟨rfl, ?_, ?_⟩
  · exact List.sorted_insertionSort dateDesc _
  · intro t
    rw [show (⟨true, List.insertionSort dateDesc (db.filter (rangePred uid d d)), none⟩
        : ListResult).transactions
      = List.insertionSort dateDesc (db.filter (rangePred uid d d)) from rfl]
    rw [List.mem_insertionSort, List.mem_filter]
    constructor
    · rintro ⟨hmem, hpred⟩
      have ht := hdb t hmem
      simp only [rangePred, Bool.and_eq_true, decide_eq_true_eq, beq_iff_eq] at hpred
      obtain ⟨⟨hu, h1⟩, h2⟩ := hpred
      have hdn := (dayWindow_iff d t.date ht).mp ⟨h1, h2⟩
      have h3 := dayNum_inj ht hd hdn
      exact ⟨hmem, hu, h3.1, h3.2.1, h3.2.2⟩
    · rintro ⟨hmem, hu, hy, hm, hday⟩
      have ht := hdb t hmem
      refine ⟨hmem, ?_⟩
      simp only [rangePred, Bool.and_eq_true, decide_eq_true_eq, beq_iff_eq]
      have hdn : dayNum t.date = dayNum d := by
        unfold dayNum monthIdx
        rw [hy, hm, hday]
      have h4 := (dayWindow_iff d t.date ht).mpr hdn
      exact ⟨⟨hu, h4.1⟩, h4.2⟩

/-- Witness for `c7_single_day_range`: a transaction at 01:00 on the queried
day is returned by the single-day query; the result is the singleton list. -/
theorem c7_witness :
    (⟨"t1", "late", 7, "Food", ⟨0, 0, 31, 3600000⟩, "u"⟩ : Transaction)
      ∈ (getTransactionsByDateRange
          ⟨Except.ok (some ("u")), none, none, ⟨0, 0, 15, 0⟩, "id1"⟩
          [⟨"t1", "late", 7, "Food", ⟨0, 0, 31, 3600000⟩, "u"⟩]
          ⟨0, 0, 31, 0⟩ ⟨0, 0, 31, 0⟩).transactions :=
  ((c7_single_day_range
      ⟨Except.ok (some ("u")), none, none, ⟨0, 0, 15, 0⟩, "id1"⟩
      [⟨"t1", "late", 7, "Food", ⟨0, 0, 31, 3600000⟩, "u"⟩] "u" ⟨0, 0, 31, 0⟩
      rfl rfl rfl (by decide)
      (by intro t ht; simp at ht; rw [ht]; decide)).2.2
    ⟨"t1", "late", 7, "Food", ⟨0, 0, 31, 3600000⟩, "u"⟩).mpr
    (by refine ⟨by simp, rfl, rfl, rfl, rfl⟩)

/-! ## Claims C9 and C10: structured results and default payloads -/

/-- Structured result shape for create/update: success carries a
transaction, failure carries an error string. -/
def StructuredMut (r : MutResult) : Prop :=
  (r.success = true ∧ r.transaction.isSome ∧ r.error = none)
    ∨ (r.success = false ∧ r.error.isSome)

/-- Structured result shape for delete. -/
def StructuredDel (r : DelResult) : Prop :=
  (r.success = true ∧ r.error = none) ∨ (r.success = false ∧ r.error.isSome)

/-- Structured result shape for the list reads. -/
def StructuredList (r : ListResult) : Prop :=
  (r.success = true ∧ r.error = none) ∨ (r.success = false ∧ r.error.isSome)

/-- Structured result shape for the monthly total. -/
def StructuredTotal (r : TotalResult) : Prop :=
  (r.success = true ∧ r.error = none) ∨ (r.success = false ∧ r.error.isSome)

/-- Structured result shape for the receipt scan: failure carries no data. -/
def StructuredScan (r : ScanResult) : Prop :=
  (r.success = true ∧ r.data.isSome ∧ r.error = none)
    ∨ (r.success = false ∧ r.data = none ∧ r.error.isSome)

theorem structuredScan_scanCatch (e : JsErr) : StructuredScan (scanCatch e) := by
  obtain ⟨msg⟩ := e
  cases msg with
  | none => simp [scanCatch, StructuredScan]
  | some m =>
    simp only [scanCatch, StructuredScan]
    split_ifs <;> simp

/-- Claim C9: no public operation throws past the service boundary — for
every environment (any authentication outcome, any user-upsert or database
fault, any provider response) and every input, each of the seven server
actions returns a structured success/error value: success with its payload
and no error, or failure with an error message (and, for the scan, no
data). -/
theorem c9_structured_results (env : Env) (db : DB)
    (data : TransactionFormData) (id : String) (marg : Option CivilDate)
    (s e : CivilDate) (senv : ScanEnv) (img : String) :
    StructuredMut (createTransaction env db data).2
    ∧ StructuredMut (updateTransaction env db id data).2
    ∧ StructuredDel (deleteTransaction env db id).2
    ∧ StructuredList (getTransactions env db)
    ∧ StructuredTotal (getMonthlyTotal env db marg)
    ∧ StructuredList (getTransactionsByDateRange env db s e)
    ∧ StructuredScan (scanReceipt senv img) := by
  refine ⟨?_, ?_, ?_, ?_, ?_, ?_, ?_⟩
  · simp only [createTransaction, ensureUser, dbCreate]
    repeat' split
    all_goals simp [StructuredMut]
  · simp only [updateTransaction, dbUpdate]
    repeat' split
    all_goals simp [StructuredMut]
  · simp only [deleteTransaction, dbDelete]
    repeat' split
    all_goals simp [StructuredDel]
  · simp only [getTransactions, ensureUser, dbFindMany]
    repeat' split
    all_goals simp [StructuredList]
  · simp only [getMonthlyTotal, ensureUser, dbAggregateSum]
    repeat' split
    all_goals simp [StructuredTotal]
  · simp only [getTransactionsByDateRange, ensureUser, dbFindMany]
    repeat' split
    all_goals simp [StructuredList]
  · simp only [scanReceipt]
    repeat' split
    all_goals first
      | exact structuredScan_scanCatch _
      | simp [StructuredScan]

/-- Claim C10: every failure result of the read operations still carries its
well-typed default payload — the list reads return an empty transaction
list and the monthly total returns 0 alongside `success: false`. -/
theorem c10_failure_payloads (env : Env) (db : DB) (marg : Option CivilDate)
    (s e : CivilDate) :
    ((getTransactions env db).success = false →
      (getTransactions env db).transactions = [])
    ∧ ((getMonthlyTotal env db marg).success = false →
      (getMonthlyTotal env db marg).total = 0)
    ∧ ((getTransactionsByDateRange env db s e).success = false →
      (getTransactionsByDateRange env db s e).transactions = []) := by
  refine ⟨?_, ?_, ?_⟩
  · simp only [getTransactions, ensureUser, dbFindMany]
    repeat' split
    all_goals simp
  · simp only [getMonthlyTotal, ensureUser, dbAggregateSum]
    repeat' split
    all_goals simp
  · simp only [getTransactionsByDateRange, ensureUser, dbFindMany]
    repeat' split
    all_goals simp

/-- Witness for `c10_failure_payloads` at an unauthenticated environment. -/
theorem c10_witness :
    (getTransactions ⟨Except.ok none, none, none, ⟨0, 0, 15, 0⟩, "id1"⟩ []).transactions = []
    ∧ (getMonthlyTotal ⟨Except.ok none, none, none, ⟨0, 0, 15, 0⟩, "id1"⟩ [] none).total = 0 :=
  ⟨(c10_failure_payloads ⟨Except.ok none, none, none, ⟨0, 0, 15, 0⟩, "id1"⟩ []
      none ⟨0, 0, 15, 0⟩ ⟨0, 0, 15, 0⟩).1 (by decide),
   (c10_failure_payloads ⟨Except.ok none, none, none, ⟨0, 0, 15, 0⟩, "id1"⟩ []
      none ⟨0, 0, 15, 0⟩ ⟨0, 0, 15, 0⟩).2.1 (by decide)⟩

/-! ## Claims C5 and C6: the trend series -/

theorem sumAmounts_cons (a : Transaction) (l : List Transaction) :
    sumAmounts (a :: l) = a.amount + sumAmounts l := by
  simp [sumAmounts]

theorem sumAmounts_filter_split (lo mid hi : Int) (h1 : lo ≤ mid) (h2 : mid ≤ hi)
    (l : List Transaction) :
    sumAmounts (l.filter (fun t => inBucket (lo, mid) t))
      + sumAmounts (l.filter (fun t => inBucket (mid, hi) t))
      = sumAmounts (l.filter (fun t => inBucket (lo, hi) t)) := by
  induction l with
  | nil => simp [sumAmounts]
  | cons a l ih =>
    simp only [List.filter_cons]
    by_cases hlo : lo ≤ (absMs a.date : Int)
    · by_cases hmid : (absMs a.date : Int) < mid
      · have hb1 : inBucket (lo, mid) a = true := by simp [inBucket, hlo, hmid]
        have hb2 : inBucket (mid, hi) a = false := by
          simp [inBucket]
          intro h
          omega
        have hb3 : inBucket (lo, hi) a = true := by
          simp [inBucket, hlo]
          omega
        simp [hb1, hb2, hb3, sumAmounts_cons]
        linarith [ih]
      · by_cases hhi : (absMs a.date : Int) < hi
        · have hb1 : inBucket (lo, mid) a = false := by
            simp [inBucket]
            intro h
            omega
          have hb2 : inBucket (mid, hi) a = true := by
            simp [inBucket, hhi]
            omega
          have hb3 : inBucket (lo, hi) a = true := by simp [inBucket, hlo, hhi]
          simp [hb1, hb2, hb3, sumAmounts_cons]
          linarith [ih]
        · have hb1 : inBucket (lo, mid) a = false := by
            simp [inBucket]
            intro h
            omega
          have hb2 : inBucket (mid, hi) a = false := by
            simp [inBucket]
            intro h
            omega
          have hb3 : inBucket (lo, hi) a = false := by
            simp [inBucket]
            intro h
            omega
          simp [hb1, hb2, hb3]
          exact ih
    · have hb1 : inBucket (lo, mid) a = false := by simp [inBucket, hlo]
      have hb2 : inBucket (mid, hi) a = false := by
        simp [inBucket]
        intro h
        omega
      have hb3 : inBucket (lo, hi) a = false := by simp [inBucket, hlo]
      simp [hb1, hb2, hb3]
      exact ih

theorem bound_mono (f : Nat → Int) (hf : ∀ k, f k ≤ f (k + 1)) {i j : Nat}
    (h : i ≤ j) : f i ≤ f j := by
  induction j with
  | zero =>
    have : i = 0 := by omega
    subst this
    exact Int.le_refl _
  | succ j ih =>
    rcases Nat.lt_or_ge i (j + 1) with hlt | hge
    · exact Int.le_trans (ih (by omega)) (hf j)
    · have : i = j + 1 := by omega
      subst this
      exact Int.le_refl _

theorem sum_buckets (f : Nat → Int) (hf : ∀ k, f k ≤ f (k + 1))
    (txs : List Transaction) :
    ∀ n : Nat,
      (((List.range n).map
          (fun k => sumAmounts (txs.filter (fun t => inBucket (f k, f (k + 1)) t)))).sum)
        = sumAmounts (txs.filter (fun t => inBucket (f 0, f n) t)) := by
  intro n
  induction n with
  | zero =>
    have hnil : txs.filter (fun t => inBucket (f 0, f 0) t) = [] := by
      apply List.filter_eq_nil_iff.mpr
      intro t _
      simp only [inBucket, Bool.and_eq_true, decide_eq_true_eq, not_and]
      intro h
      omega
    simp [hnil, sumAmounts]
  | succ n ih =>
    rw [List.range_succ, List.map_append, List.sum_append, ih]
    simp only [List.map_cons, List.map_nil, List.sum_cons, List.sum_nil, add_zero]
    have h3 := sumAmounts_filter_split (f 0) (f n) (f (n + 1))
      (bound_mono f hf (Nat.zero_le n)) (hf n) txs
    linarith [h3]

theorem dailyBound_mono (s : CivilDate) (k : Nat) :
    dailyBound s k ≤ dailyBound s (k + 1) := by
  unfold dailyBound msPerDay
  push_cast
  omega

theorem weeklyBound_mono (s : CivilDate) (k : Nat) :
    weeklyBound s k ≤ weeklyBound s (k + 1) := by
  unfold weeklyBound msPerDay
  push_cast
  omega

theorem monthlyBound_mono (s : CivilDate) (k : Nat) :
    monthlyBound s k ≤ monthlyBound s (k + 1) := by
  unfold monthlyBound msPerDay
  have := monthStartDay_mono (show monthIdx s + k ≤ monthIdx s + (k + 1) by omega)
  omega

theorem daily_covers (s e : CivilDate) (t : Transaction)
    (ht : ValidDate t.date) (hse : dayNum s ≤ dayNum e)
    (h1 : dayNum s ≤ dayNum t.date) (h2 : dayNum t.date ≤ dayNum e) :
    dailyBound s 0 ≤ (absMs t.date : Int)
      ∧ (absMs t.date : Int) < dailyBound s (dailyCount s e) := by
  have hms := ht.2.2.2
  unfold dailyBound dailyCount absMs at *
  unfold msPerDay at *
  push_cast
  omega

theorem weekly_covers (s e : CivilDate) (t : Transaction)
    (ht : ValidDate t.date) (hse : dayNum s ≤ dayNum e)
    (h1 : dayNum s ≤ dayNum t.date) (h2 : dayNum t.date ≤ dayNum e) :
    weeklyBound s 0 ≤ (absMs t.date : Int)
      ∧ (absMs t.date : Int) < weeklyBound s (weeklyCount s e) := by
  have hms := ht.2.2.2
  unfold weeklyBound weeklyCount weekStartZ absMs at *
  unfold msPerDay at *
  push_cast
  omega

theorem monthly_covers (s e : CivilDate) (t : Transaction)
    (ht : ValidDate t.date) (he : ValidDate e) (hse : dayNum s ≤ dayNum e)
    (h1 : dayNum s ≤ dayNum t.date) (h2 : dayNum t.date ≤ dayNum e) :
    monthlyBound s 0 ≤ (absMs t.date : Int)
      ∧ (absMs t.date : Int) < monthlyBound s (monthlyCount s e) := by
  have hms := ht.2.2.2
  have hlow := dayNum_lower s
  have hup := dayNum_upper e he
  have hidx : monthIdx s ≤ monthIdx e := by
    by_contra hc
    have h3 := monthStartDay_mono (show monthIdx e + 1 ≤ monthIdx s by omega)
    have h4 := dayNum_lower s
    omega
  have heq : monthIdx s + (monthlyCount s e) = monthIdx e + 1 := by
    unfold monthlyCount
    omega
  unfold monthlyBound
  rw [Nat.add_zero, heq]
  unfold absMs at *
  unfold msPerDay at *
  constructor
  · push_cast
    omega
  · push_cast
    omega

theorem trend_bucket_total (f : Nat → Int) (hf : ∀ k, f k ≤ f (k + 1)) (n : Nat)
    (txs : List Transaction)
    (hcov : ∀ t ∈ txs, f 0 ≤ (absMs t.date : Int) ∧ (absMs t.date : Int) < f n) :
    ((((List.range n).map (fun k => (f k, f (k + 1)))).map
        (fun iv => (iv.1, sumAmounts (txs.filter (fun t => inBucket iv t))))).map
          (fun b => b.2)).sum
      = sumAmounts txs := by
  rw [List.map_map, List.map_map]
  have hcomp : (((fun b : Int × Rat => b.2)
        ∘ (fun iv : Int × Int => (iv.1, sumAmounts (txs.filter (fun t => inBucket iv t)))))
        ∘ (fun k => (f k, f (k + 1))))
      = fun k => sumAmounts (txs.filter (fun t => inBucket (f k, f (k + 1)) t)) := rfl
  rw [hcomp, sum_buckets f hf txs n]
  congr 1
  apply List.filter_eq_self.mpr
  intro t ht
  have hc := hcov t ht
  simp only [inBucket, Bool.and_eq_true, decide_eq_true_eq]
  exact hc

/-- Claim C6: for every selected period and every transaction list lying
within the fetched day window, the trend-series bucket sums add up to the
total spending over the window — each transaction is counted in exactly one
half-open bucket `[start, start + granularity)`. -/
theorem c6_trend_sum_eq_total (p : TimePeriod) (s e : CivilDate)
    (txs : List Transaction) (hs : ValidDate s) (he : ValidDate e)
    (hse : dayNum s ≤ dayNum e)
    (htx : ∀ t ∈ txs, ValidDate t.date ∧ dayNum s ≤ dayNum t.date
        ∧ dayNum t.date ≤ dayNum e) :
    ((trendData p s e txs).map (fun b => b.2)).sum = totalSpending txs := by
  cases txs with
  | nil => simp [trendData, totalSpending, sumAmounts]
  | cons a l =>
    unfold trendData totalSpending
    simp only [List.isEmpty_cons, Bool.false_eq_true, if_false]
    cases p with
    | thisMonth =>
      simp only [intervalsOf]
      exact trend_bucket_total (dailyBound s) (dailyBound_mono s) (dailyCount s e)
        (a :: l)
        (fun t ht => daily_covers s e t (htx t ht).1 hse (htx t ht).2.1 (htx t ht).2.2)
    | last3Months =>
      simp only [intervalsOf]
      exact trend_bucket_total (weeklyBound s) (weeklyBound_mono s) (weeklyCount s e)
        (a :: l)
        (fun t ht => weekly_covers s e t (htx t ht).1 hse (htx t ht).2.1 (htx t ht).2.2)
    | thisYear =>
      simp only [intervalsOf]
      exact trend_bucket_total (monthlyBound s) (monthlyBound_mono s) (monthlyCount s e)
        (a :: l)
        (fun t ht => monthly_covers s e t (htx t ht).1 he hse (htx t ht).2.1 (htx t ht).2.2)
    | custom =>
      simp only [intervalsOf]
      exact trend_bucket_total (monthlyBound s) (monthlyBound_mono s) (monthlyCount s e)
        (a :: l)
        (fun t ht => monthly_covers s e t (htx t ht).1 he hse (htx t ht).2.1 (htx t ht).2.2)

/-- Witness for `c6_trend_sum_eq_total`: the weekly buckets of January of
year 0 sum to the single contained transaction's amount. -/
theorem c6_witness :
    ((trendData TimePeriod.last3Months ⟨0, 0, 1, 0⟩ ⟨0, 0, 31, 0⟩
        [⟨"t1", "x", 5, "Food", ⟨0, 0, 5, 0⟩, "u"⟩]).map (fun b => b.2)).sum
      = totalSpending [⟨"t1", "x", 5, "Food", ⟨0, 0, 5, 0⟩, "u"⟩] :=
  c6_trend_sum_eq_total TimePeriod.last3Months ⟨0, 0, 1, 0⟩ ⟨0, 0, 31, 0⟩
    [⟨"t1", "x", 5, "Food", ⟨0, 0, 5, 0⟩, "u"⟩] (by decide) (by decide) (by decide)
    (by intro t ht; simp at ht; rw [ht]; exact ⟨by decide, by decide, by decide⟩)

/-- Claim C5 as stated: the trend series equals the series whose granularity
is chosen from the requested window itself — daily for a single-month
window, weekly for a span of at most 3 calendar months, monthly otherwise —
with every bucket of the window present, reporting 0 when empty
(`specTrendData`). -/
def C5Claim : Prop :=
  ∀ (p : TimePeriod) (s e : CivilDate) (txs : List Transaction),
    trendData p s e txs = specTrendData s e txs

/-- Claim C5 is false: for a custom period whose window is a single month
(January of year 0) the code buckets monthly — one bucket — while the
window-derived granularity is daily (31 buckets with zeros preserved). -/
theorem c5_counterexample : ¬ C5Claim := by
  intro h
  exact absurd
    (h TimePeriod.custom ⟨0, 0, 1, 0⟩ ⟨0, 0, 31, 0⟩
      [⟨"t1", "x", 5, "Food", ⟨0, 0, 5, 0⟩, "u"⟩])
    (by decide)

/-- Amended claim C5: granularity follows the selected period preset, not
the window — daily for `thisMonth`, weekly for `last3Months`, monthly for
`thisYear` and `custom` (whatever the custom window's length); when the
fetched list is nonempty every bucket of the period's axis appears in the
output and a bucket containing no transaction reports 0, but when the list
is empty the series is empty rather than an axis of zeros. -/
theorem c5_trend_axis (p : TimePeriod) (s e : CivilDate)
    (txs : List Transaction) :
    trendData p s e [] = []
    ∧ (txs ≠ [] →
        ((trendData p s e txs).map Prod.fst = (intervalsOf p s e).map Prod.fst)
        ∧ ∀ iv ∈ intervalsOf p s e,
            (∀ t ∈ txs, inBucket iv t = false) →
            (iv.1, (0 : Rat)) ∈ trendData p s e txs) := by
  constructor
  · simp [trendData]
  · intro hne
    have hemp : txs.isEmpty = false := by
      cases txs with
      | nil => exact absurd rfl hne
      | cons a l => rfl
    constructor
    · simp only [trendData, hemp, Bool.false_eq_true, if_false, List.map_map]
      rfl
    · intro iv hiv hnone
      simp only [trendData, hemp, Bool.false_eq_true, if_false]
      apply List.mem_map.mpr
      refine ⟨iv, hiv, ?_⟩
      have hfil : txs.filter (fun t => inBucket iv t) = [] := by
        apply List.filter_eq_nil_iff.mpr
        intro t ht
        rw [hnone t ht]
        simp
      rw [hfil]
      rfl

/-- Witness for `c5_trend_axis`: with one transaction outside the single
daily bucket of a one-day window, the bucket still appears and reports 0. -/
theorem c5_witness :
    ((trendData TimePeriod.thisMonth ⟨0, 0, 1, 0⟩ ⟨0, 0, 1, 0⟩
        [⟨"t1", "x", 5, "Food", ⟨0, 0, 2, 0⟩, "u"⟩]).map Prod.fst
      = (intervalsOf TimePeriod.thisMonth ⟨0, 0, 1, 0⟩ ⟨0, 0, 1, 0⟩).map Prod.fst)
    ∧ ((0 : Int), (0 : Rat)) ∈ trendData TimePeriod.thisMonth ⟨0, 0, 1, 0⟩ ⟨0, 0, 1, 0⟩
        [⟨"t1", "x", 5, "Food", ⟨0, 0, 2, 0⟩, "u"⟩] :=
  ⟨((c5_trend_axis TimePeriod.thisMonth ⟨0, 0, 1, 0⟩ ⟨0, 0, 1, 0⟩
      [⟨"t1", "x", 5, "Food", ⟨0, 0, 2, 0⟩, "u"⟩]).2 (by decide)).1,
   ((c5_trend_axis TimePeriod.thisMonth ⟨0, 0, 1, 0⟩ ⟨0, 0, 1, 0⟩
      [⟨"t1", "x", 5, "Food", ⟨0, 0, 2, 0⟩, "u"⟩]).2 (by decide)).2
     ((0 : Int), (86400000 : Int)) (by decide)
     (by intro t ht; simp at ht; rw [ht]; decide)⟩

/-! ## Claim C8: receipt-scan field validation -/

/-- Claim C8 as stated, over the parsed response: a present category outside
the closed set is coerced to `Other` with the scan still succeeding, and a
missing field makes the scan fail with no data. -/
def C8Claim : Prop :=
  ∀ (j : ScanJson) (rp : JsVal → Option String) (today text : String),
    ((∀ c, j.category = some c →
        (∀ cs, c = JsVal.str cs → cs ∉ validCategories) →
        (scanReceipt ⟨true, Except.ok text, fun _ => Except.ok j, rp, today⟩
            ("data:image/png;base64,AAA")).success = true
          ∧ ∃ d, (scanReceipt ⟨true, Except.ok text, fun _ => Except.ok j, rp, today⟩
              ("data:image/png;base64,AAA")).data = some d ∧ d.category = "Other")
      ∧ ((j.name = none ∨ j.amount = none ∨ j.date = none ∨ j.category = none) →
          (scanReceipt ⟨true, Except.ok text, fun _ => Except.ok j, rp, today⟩
              ("data:image/png;base64,AAA")).success = false
            ∧ (scanReceipt ⟨true, Except.ok text, fun _ => Except.ok j, rp, today⟩
                ("data:image/png;base64,AAA")).data = none))

/-- Claim C8 is false on its first half: a response whose category is
present but the empty string — outside the closed set — is treated as
missing by the truthiness check and the scan fails instead of coercing the
category to `Other`. -/
theorem c8_counterexample : ¬ C8Claim := by
  intro h
  exact absurd
    (((h ⟨some (JsVal.str ("Store")), some (JsVal.num 30),
          some (JsVal.str ("2024-01-01")), some (JsVal.str (""))⟩
        (fun _ => none) "2024-06-01" "resp").1 (JsVal.str ("")) rfl
      (by intro cs hcs; cases hcs; decide)).1)
    (by decide)

/-- Amended claim C8: field presence is judged by JavaScript truthiness — a
field that is absent, an empty string, or the number 0 makes the scan fail
with no data; when all four fields are truthy, a string category outside
the closed set is coerced to `Other` and the scan succeeds provided the
amount is a positive number. -/
theorem c8_scan_validation (j : ScanJson) (rp : JsVal → Option String)
    (today text : String) :
    ((truthyField j.name = false ∨ truthyField j.amount = false
        ∨ truthyField j.date = false ∨ truthyField j.category = false) →
      (scanReceipt ⟨true, Except.ok text, fun _ => Except.ok j, rp, today⟩
          ("data:image/png;base64,AAA")).success = false
        ∧ (scanReceipt ⟨true, Except.ok text, fun _ => Except.ok j, rp, today⟩
            ("data:image/png;base64,AAA")).data = none)
    ∧ (∀ (nameV dateV : JsVal) (q : Rat) (catS : String),
        j.name = some nameV → truthy nameV = true →
        j.amount = some (JsVal.num q) → 0 < q →
        j.date = some dateV → truthy dateV = true →
        j.category = some (JsVal.str catS) → catS ≠ "" →
        catS ∉ validCategories →
        (scanReceipt ⟨true, Except.ok text, fun _ => Except.ok j, rp, today⟩
            ("data:image/png;base64,AAA")).success = true
          ∧ ∃ d, (scanReceipt ⟨true, Except.ok text, fun _ => Except.ok j, rp, today⟩
              ("data:image/png;base64,AAA")).data = some d
            ∧ d.category = "Other") := by
  constructor
  · intro hmiss
    have hcond : (!(truthyField j.name) || !(truthyField j.amount)
        || !(truthyField j.date) || !(truthyField j.category)) = true := by
      rcases hmiss with h | h | h | h <;> simp [h]
    simp only [scanReceipt]
    rw [if_neg (by decide), if_neg (by decide)]
    have hb64 : base64ToGenerativePart ("data:image/png;base64,AAA")
        = Except.ok ("image/png", "AAA") := rfl
    rw [hb64]
    simp only [hcond, if_true]
    decide
  · intro nameV dateV q catS hn htn ha hq hd htd hc hcne hcout
    have htq : truthy (JsVal.num q) = true := by
      simp [truthy]
      exact ne_of_gt hq
    have htc : truthy (JsVal.str catS) = true := by simp [truthy, hcne]
    have hcond : (!(truthyField j.name) || !(truthyField j.amount)
        || !(truthyField j.date) || !(truthyField j.category)) = false := by
      simp [truthyField, hn, ha, hd, hc, htn, htd, htq, htc]
    simp only [scanReceipt]
    rw [if_neg (by decide), if_neg (by decide)]
    have hb64 : base64ToGenerativePart ("data:image/png;base64,AAA")
        = Except.ok ("image/png", "AAA") := rfl
    rw [hb64]
    simp only [hcond, Bool.false_eq_true, if_false]
    rw [hn, ha, hd, hc]
    have hcontains : validCategories.contains catS = false := by
      simpa using hcout
    simp only [hcontains, Bool.false_eq_true, if_false]
    have hq0 : ¬ q ≤ 0 := not_le.mpr hq
    rw [if_neg hq0]
    exact ⟨rfl, _, rfl, rfl⟩

/-- Witness for `c8_scan_validation`: a response missing its category fails
with no data, and a truthy out-of-set category (`Casino`) yields success
with category `Other`. -/
theorem c8_witness :
    ((scanReceipt ⟨true, Except.ok ("resp"),
        fun _ => Except.ok ⟨some (JsVal.str ("Store")), some (JsVal.num 30),
          some (JsVal.str ("2024-01-01")), none⟩,
        fun _ => none, "2024-06-01"⟩ ("data:image/png;base64,AAA")).success = false)
    ∧ ∃ d, (scanReceipt ⟨true, Except.ok ("resp"),
        fun _ => Except.ok ⟨some (JsVal.str ("Store")), some (JsVal.num 30),
          some (JsVal.str ("2024-01-01")), some (JsVal.str ("Casino"))⟩,
        fun _ => none, "2024-06-01"⟩ ("data:image/png;base64,AAA")).data = some d
      ∧ d.category = "Other" :=
  ⟨((c8_scan_validation ⟨some (JsVal.str ("Store")), some (JsVal.num 30),
        some (JsVal.str ("2024-01-01")), none⟩
      (fun _ => none) "2024-06-01" "resp").1 (by decide)).1,
   ((c8_scan_validation ⟨some (JsVal.str ("Store")), some (JsVal.num 30),
        some (JsVal.str ("2024-01-01")), some (JsVal.str ("Casino"))⟩
      (fun _ => none) "2024-06-01" "resp").2 (JsVal.str ("Store"))
      (JsVal.str ("2024-01-01")) 30 "Casino" rfl (by decide) rfl (by decide) rfl
      (by decide) rfl (by decide) (by decide)).2⟩
